import Mathlib

/-!
Shallow embedding of `src/streamlit_app.py`, a single-page Streamlit viewer:
it fetches marketing queries with their objectives from a graph store,
scores them against the user's input text with an embedding model, and
renders the top matches.  The external collaborators (the Neo4j driver, the
sentence-embedding model, the Streamlit rendering layer) are modelled as
parameters and as an emitted event trace; the logic of the script itself
(row reshaping, scoring, sorting, branching, rendering, error handling) is
translated faithfully.
-/

/-- A flat result row of the fixed Cypher query (lines 20-31 of the source):
one row per (Query, Objective) pair, with traffic sources and KPIs already
aggregated into per-row lists by the store. -/
structure Row where
  query_id : String
  query_text : String
  objective_id : String
  objective_name : String
  traffic_sources : List String
  kpis : List String
deriving DecidableEq, Repr

/-- The objective dict appended for one row (lines 43-48 of the source). -/
structure Objective where
  id : String
  name : String
  traffic_sources : List String
  kpis : List String
deriving DecidableEq, Repr

/-- A query dict as built by the fetch loop (lines 38-42 of the source). -/
structure Query where
  id : String
  query : String
  objectives : List Objective
deriving DecidableEq, Repr

/-- Builds the objective dict from one flat row (lines 43-48). -/
def rowObjective (r : Row) : Objective :=
  { id := r.objective_id
    name := r.objective_name
    traffic_sources := r.traffic_sources
    kpis := r.kpis }

/-- One iteration of the loop in `fetch_queries_with_objectives_and_details`
(lines 35-48): create the query dict on first sight of its id, then append
the row's objective to that query's list.  The insertion-ordered dict
`queries` is modelled as a list of `Query` keyed by `id`. -/
def processRow (acc : List Query) (r : Row) : List Query :=
  if acc.any (fun q => q.id == r.query_id) then
    acc.map (fun q =>
      if q.id == r.query_id then
        { q with objectives := q.objectives ++ [rowObjective r] }
      else q)
  else
    acc ++ [{ id := r.query_id, query := r.query_text, objectives := [rowObjective r] }]

/-- `fetch_queries_with_objectives_and_details` (lines 16-49), applied to the
flat rows the store returns: reshape them into one `Query` record per
distinct id, in first-seen order. -/
def fetch_queries_with_objectives_and_details (rows : List Row) : List Query :=
  rows.foldl processRow []

/-- A query dict after the ranking step added its similarity score.  Scores
are modelled as rationals (the floating-point dot product of the external
embedding model is abstracted by a score function parameter). -/
structure ScoredQuery where
  id : String
  query : String
  objectives : List Objective
  similarity : Rat
deriving DecidableEq, Repr

/-- `calculate_similarity` (lines 51-61), value level: extract each query's
text in list order, score each text against `input_text` with the abstract
embedding-model score `sim`, and attach the score to each query by
position. -/
def calculate_similarity (sim : String → String → Rat) (queries : List Query)
    (input_text : String) : List ScoredQuery :=
  let query_texts := queries.map (fun q => q.query)
  let similarities := query_texts.map (fun t => sim t input_text)
  (queries.zip similarities).map (fun p =>
    { id := p.1.id, query := p.1.query, objectives := p.1.objectives,
      similarity := p.2 })

/-- A Python query dict viewed as a mutable heap object: the `similarity`
key is absent (`none`) until `calculate_similarity` assigns it. -/
structure QueryDict where
  id : String
  query : String
  objectives : List Objective
  similarity : Option Rat
deriving DecidableEq, Repr

/-- `calculate_similarity` (lines 51-61), heap level: the argument list holds
addresses of dicts in a heap; the texts are read first, then the loop
assigns `similarity` into each addressed dict in place, and the function
returns the argument list itself. -/
def calculate_similarity_heap (sim : String → String → Rat)
    (heap : Nat → QueryDict) (queries : List Nat) (input_text : String) :
    (Nat → QueryDict) × List Nat :=
  let query_texts := queries.map (fun a => (heap a).query)
  let similarities := query_texts.map (fun t => sim t input_text)
  let heap2 := (queries.zip similarities).foldl
    (fun h p => fun a => if a = p.1 then { h a with similarity := some p.2 } else h a)
    heap
  (heap2, queries)

/-- The comparison under `sorted(similar_queries, key=lambda x: x["similarity"],
reverse=True)` (line 79): descending by score. -/
def byDescendingSimilarity (a b : ScoredQuery) : Bool :=
  decide (b.similarity ≤ a.similarity)

/-- Line 79: Python's `sorted` is a stable sort; with `reverse=True` equal
keys still keep their original relative order, which `List.mergeSort`
models. -/
def sortBySimilarityDesc (l : List ScoredQuery) : List ScoredQuery :=
  l.mergeSort byDescendingSimilarity

/-- One rendering or effect step emitted by the script body. -/
inductive REvent where
  | write (s : String)
  | warning (s : String)
  | subheader (s : String)
  | expander (s : String)
  | tabs (labels : List String)
  | error (s : String)
  | closeDriver
deriving DecidableEq, Repr

/-- The two `st.write` calls inside one objective tab (lines 96-97): the
f-strings join the lists with a comma, with Python truthiness falling back
to the literal string "None" on an empty list. -/
def render_objective (obj : Objective) : List REvent :=
  [ REvent.write ("**Traffic Sources:** " ++
      (if obj.traffic_sources ≠ [] then String.intercalate ", " obj.traffic_sources
       else "None")),
    REvent.write ("**KPIs:** " ++
      (if obj.kpis ≠ [] then String.intercalate ", " obj.kpis else "None")) ]

/-- The rendering of one ranked query (lines 88-97): an expander titled by
the query text, the objectives header, one tab per objective name, and the
per-objective writes. -/
def render_query (q : ScoredQuery) : List REvent :=
  REvent.expander q.query ::
  REvent.write "**Related Objectives:**" ::
  REvent.tabs (q.objectives.map (fun o => o.name)) ::
  (q.objectives.map render_objective).flatten

/-- The body of the `try` block (lines 72-97): the events it emits together
with the exception it raises, if any.  `fetchRes` is the outcome of the
store round trip (lines 32-33 can raise); `rankFail` injects a failure of
the embedding model inside `calculate_similarity`.  The threshold literal
`0.3` of line 82 is the exact rational `mkRat 3 10`. -/
def try_body (sim : String → String → Rat) (fetchRes : Except String (List Row))
    (rankFail : Option String) (input_text : String) :
    List REvent × Option String :=
  match fetchRes with
  | Except.error e => ([], some e)
  | Except.ok rows =>
    let queries := fetch_queries_with_objectives_and_details rows
    if queries.isEmpty then
      ([REvent.write "No queries found in the database."], none)
    else
      match rankFail with
      | some e => ([], some e)
      | none =>
        let similar := sortBySimilarityDesc (calculate_similarity sim queries input_text)
        match similar with
        | [] => ([], some "list index out of range")
        | top :: _ =>
          if top.similarity < mkRat 3 10 then
            ([REvent.warning "The input query might not be relevant to marketing."], none)
          else
            (REvent.subheader "Top Similar Queries:" ::
             ((similar.take 5).map render_query).flatten, none)

/-- Injects a failure of a Streamlit rendering call itself: the script run
stops after the first `failAt` emitted events and raises.  `none` means no
rendering call fails. -/
def injectRenderFailure (p : List REvent × Option String) (failAt : Option Nat) :
    List REvent × Option String :=
  match failAt with
  | none => p
  | some k => if k < p.1.length then (p.1.take k, some "render failure") else p

/-- The whole request cycle (lines 70-101): the guard on a non-empty input
(Python truthiness of `input_text`), the `try` body, the `except` handler
that writes the generic error message (line 99), and the `finally` that
closes the driver (line 101). -/
def run_request (sim : String → String → Rat) (fetchRes : Except String (List Row))
    (rankFail : Option String) (failAt : Option Nat) (input_text : String) :
    List REvent :=
  if input_text = "" then []
  else
    let p := injectRenderFailure (try_body sim fetchRes rankFail input_text) failAt
    (match p.2 with
     | none => p.1
     | some e => p.1 ++ [REvent.error ("An error occurred: " ++ e)]) ++
    [REvent.closeDriver]

/-- The query-dict fields of a scored query, before the score was added. -/
def toQuery (s : ScoredQuery) : Query :=
  { id := s.id, query := s.query, objectives := s.objectives }

/-- Recognizes the expander events, one per rendered result entry. -/
def isExpander : REvent → Bool
  | REvent.expander _ => true
  | _ => false

/-- Recognizes the relevance-warning event. -/
def isWarning : REvent → Bool
  | REvent.warning _ => true
  | _ => false

/-! ### Helper lemmas -/

lemma zip_map_self_map {α β γ : Type} (l : List α) (f : α → β) (g : α × β → γ) :
    (l.zip (l.map f)).map g = l.map (fun a => g (a, f a)) := by
  induction l with
  | nil => rfl
  | cons a l ih => simp [ih]

lemma zip_map_self_foldl {α β γ : Type} (l : List α) (f : α → β)
    (g : γ → α × β → γ) (c : γ) :
    (l.zip (l.map f)).foldl g c = l.foldl (fun c a => g c (a, f a)) c := by
  induction l generalizing c with
  | nil => rfl
  | cons a l ih => simp [ih]

lemma calculate_similarity_eq_map (sim : String → String → Rat) (qs : List Query)
    (t : String) :
    calculate_similarity sim qs t =
      qs.map (fun q => { id := q.id, query := q.query, objectives := q.objectives,
                         similarity := sim q.query t }) := by
  simp only [calculate_similarity]
  rw [List.map_map, zip_map_self_map]
  rfl

lemma foldl_assign_similarity (g : Nat → Rat) :
    ∀ (qs : List Nat) (h0 : Nat → QueryDict) (a : Nat),
    (qs.foldl (fun h x => fun b => if b = x then { h b with similarity := some (g x) } else h b) h0) a =
      if a ∈ qs then { h0 a with similarity := some (g a) } else h0 a := by
  intro qs
  induction qs with
  | nil => intro h0 a; simp
  | cons x qs ih =>
    intro h0 a
    rw [List.foldl_cons, ih]
    by_cases hax : a ∈ qs
    · simp only [hax, if_true, List.mem_cons, or_true]
      by_cases haxx : a = x
      · subst haxx; simp
      · simp [haxx]
    · by_cases haxx : a = x
      · subst haxx; simp [hax]
      · simp [hax, haxx, List.mem_cons]

lemma byDescendingSimilarity_trans : ∀ (a b c : ScoredQuery),
    byDescendingSimilarity a b → byDescendingSimilarity b c →
    byDescendingSimilarity a c := by
  intro a b c hab hbc
  simp only [byDescendingSimilarity, decide_eq_true_eq] at *
  exact le_trans hbc hab

lemma byDescendingSimilarity_total : ∀ (a b : ScoredQuery),
    byDescendingSimilarity a b || byDescendingSimilarity b a := by
  intro a b
  simp only [byDescendingSimilarity, Bool.or_eq_true, decide_eq_true_eq]
  exact le_total _ _

/-! ### Claim theorems, first batch -/

/-- C3: for every non-empty input list, `calculate_similarity` returns a
list of the same length as its input, and every original query's fields
(id, text, objectives) are unchanged in the output; the only difference is
the added similarity score. -/
theorem calculate_similarity_preserves_fields (sim : String → String → Rat)
    (qs : List Query) (t : String) (_hne : qs ≠ []) :
    (calculate_similarity sim qs t).length = qs.length ∧
    (calculate_similarity sim qs t).map toQuery = qs := by
  rw [calculate_similarity_eq_map]
  refine ⟨by simp, ?_⟩
  rw [List.map_map]
  have h : (toQuery ∘ fun q : Query =>
      ({ id := q.id, query := q.query, objectives := q.objectives,
         similarity := sim q.query t } : ScoredQuery)) = fun q => q := rfl
  rw [h, List.map_id']

/-- Witness for C3 at a concrete one-element list. -/
theorem calculate_similarity_preserves_fields_witness :
    (([⟨"q1", "A", []⟩] : List Query) ≠ []) ∧
    ((calculate_similarity (fun _ _ => 1) [⟨"q1", "A", []⟩] "x").length =
      ([⟨"q1", "A", []⟩] : List Query).length ∧
     (calculate_similarity (fun _ _ => 1) [⟨"q1", "A", []⟩] "x").map toQuery =
      [⟨"q1", "A", []⟩]) :=
  ⟨by decide,
   calculate_similarity_preserves_fields (fun _ _ => 1) [⟨"q1", "A", []⟩] "x"
     (by decide)⟩

/-- C9: the heap-level `calculate_similarity` returns the very same list of
dict references it was given, and mutates each referenced dict in place by
setting exactly the similarity key to that dict's score; every other field
of the referenced dicts and every unreferenced heap object is unchanged. -/
theorem calculate_similarity_heap_frame (sim : String → String → Rat)
    (heap : Nat → QueryDict) (qs : List Nat) (t : String) :
    (calculate_similarity_heap sim heap qs t).2 = qs ∧
    ∀ a : Nat, (calculate_similarity_heap sim heap qs t).1 a =
      if a ∈ qs then { heap a with similarity := some (sim (heap a).query t) }
      else heap a := by
  constructor
  · rfl
  · intro a
    simp only [calculate_similarity_heap]
    rw [List.map_map, zip_map_self_foldl]
    exact foldl_assign_similarity (fun b => sim (heap b).query t) qs heap a

/-- C2: line 79 sorts the scored queries descending by score; the sort is a
permutation and it is stable: elements of any fixed score appear in the
output in exactly their input order. -/
theorem sort_descending_and_stable (l : List ScoredQuery) :
    (sortBySimilarityDesc l).Perm l ∧
    (sortBySimilarityDesc l).Pairwise (fun a b => b.similarity ≤ a.similarity) ∧
    ∀ s : Rat, (sortBySimilarityDesc l).filter (fun x => decide (x.similarity = s)) =
      l.filter (fun x => decide (x.similarity = s)) := by
  refine ⟨List.mergeSort_perm l _, ?_, ?_⟩
  · have h := List.sorted_mergeSort byDescendingSimilarity_trans
      byDescendingSimilarity_total l
    exact h.imp (fun hab => by
      simpa [byDescendingSimilarity] using hab)
  · intro s
    have hall : ∀ x ∈ l.filter (fun x => decide (x.similarity = s)),
        x.similarity = s := by
      intro x hx
      simpa using List.of_mem_filter hx
    have hpw : (l.filter (fun x => decide (x.similarity = s))).Pairwise
        (fun a b => byDescendingSimilarity a b = true) := by
      apply List.pairwise_of_forall_mem_list
      intro a ha b hb
      simp [byDescendingSimilarity, hall a ha, hall b hb]
    have hsub : List.Sublist (l.filter (fun x => decide (x.similarity = s)))
        (List.mergeSort l byDescendingSimilarity) :=
      List.sublist_mergeSort byDescendingSimilarity_trans
        byDescendingSimilarity_total hpw (List.filter_sublist l)
    have hsub2 : List.Sublist (l.filter (fun x => decide (x.similarity = s)))
        ((List.mergeSort l byDescendingSimilarity).filter
          (fun x => decide (x.similarity = s))) := by
      have h2 := hsub.filter (fun x => decide (x.similarity = s))
      rwa [List.filter_eq_self.mpr (fun a ha => by simp [hall a ha])] at h2
    have hperm : ((List.mergeSort l byDescendingSimilarity).filter
        (fun x => decide (x.similarity = s))).Perm
        (l.filter (fun x => decide (x.similarity = s))) :=
      (List.mergeSort_perm l byDescendingSimilarity).filter _
    exact (hsub2.eq_of_length hperm.length_eq.symm).symm

/-- C5: when the fetch returns the empty list, the request shows only the
no-data message (followed by the driver release), and the outcome does not
depend on the scoring function or on an injected embedding failure: the
ranker is never invoked. -/
theorem empty_fetch_shows_no_data (sim sim2 : String → String → Rat)
    (rf rf2 : Option String) (rows : List Row) (t : String) (ht : t ≠ "")
    (hempty : fetch_queries_with_objectives_and_details rows = []) :
    run_request sim (Except.ok rows) rf none t =
      [REvent.write "No queries found in the database.", REvent.closeDriver] ∧
    run_request sim (Except.ok rows) rf none t =
      run_request sim2 (Except.ok rows) rf2 none t := by
  have h1 : ∀ (s : String → String → Rat) (r : Option String),
      run_request s (Except.ok rows) r none t =
        [REvent.write "No queries found in the database.", REvent.closeDriver] := by
    intro s r
    simp [run_request, try_body, injectRenderFailure, hempty, ht]
  exact ⟨h1 sim rf, (h1 sim rf).trans (h1 sim2 rf2).symm⟩

/-- Witness for C5 at the empty row list. -/
theorem empty_fetch_shows_no_data_witness :
    ("x" ≠ "" ∧ fetch_queries_with_objectives_and_details [] = []) ∧
    (run_request (fun _ _ => 1) (Except.ok []) none none "x" =
      [REvent.write "No queries found in the database.", REvent.closeDriver] ∧
     run_request (fun _ _ => 1) (Except.ok []) none none "x" =
      run_request (fun _ _ => 0) (Except.ok []) (some "boom") none "x") :=
  ⟨⟨by decide, rfl⟩,
   empty_fetch_shows_no_data (fun _ _ => 1) (fun _ _ => 0) none (some "boom") []
     "x" (by decide) rfl⟩

lemma closeDriver_not_mem_render_query (q : ScoredQuery) :
    REvent.closeDriver ∉ render_query q := by
  simp only [render_query, List.mem_cons, List.mem_flatten, List.mem_map]
  rintro (h | h | h | ⟨l, ⟨o, ho, rfl⟩, hmem⟩)
  · exact REvent.noConfusion h
  · exact REvent.noConfusion h
  · exact REvent.noConfusion h
  · simp [render_objective] at hmem

lemma try_body_fetch_error (sim : String → String → Rat) (e : String)
    (rf : Option String) (t : String) :
    try_body sim (Except.error e) rf t = ([], some e) := rfl

lemma try_body_empty (sim : String → String → Rat) (rf : Option String)
    (t : String) (rows : List Row)
    (h : fetch_queries_with_objectives_and_details rows = []) :
    try_body sim (Except.ok rows) rf t =
      ([REvent.write "No queries found in the database."], none) := by
  simp [try_body, h]

lemma try_body_rank_fail (sim : String → String → Rat) (e : String) (t : String)
    (rows : List Row) (h : fetch_queries_with_objectives_and_details rows ≠ []) :
    try_body sim (Except.ok rows) (some e) t = ([], some e) := by
  simp [try_body, h]

lemma try_body_index_error (sim : String → String → Rat) (t : String)
    (rows : List Row) (h : fetch_queries_with_objectives_and_details rows ≠ [])
    (hs : sortBySimilarityDesc
      (calculate_similarity sim (fetch_queries_with_objectives_and_details rows) t) = []) :
    try_body sim (Except.ok rows) none t = ([], some "list index out of range") := by
  simp [try_body, h, hs]

lemma try_body_warning (sim : String → String → Rat) (t : String)
    (rows : List Row) (top : ScoredQuery) (rest : List ScoredQuery)
    (h : fetch_queries_with_objectives_and_details rows ≠ [])
    (hs : sortBySimilarityDesc
      (calculate_similarity sim (fetch_queries_with_objectives_and_details rows) t) =
      top :: rest)
    (hlt : top.similarity < mkRat 3 10) :
    try_body sim (Except.ok rows) none t =
      ([REvent.warning "The input query might not be relevant to marketing."], none) := by
  simp [try_body, h, hs, hlt]

lemma try_body_results (sim : String → String → Rat) (t : String)
    (rows : List Row) (top : ScoredQuery) (rest : List ScoredQuery)
    (h : fetch_queries_with_objectives_and_details rows ≠ [])
    (hs : sortBySimilarityDesc
      (calculate_similarity sim (fetch_queries_with_objectives_and_details rows) t) =
      top :: rest)
    (hge : ¬ top.similarity < mkRat 3 10) :
    try_body sim (Except.ok rows) none t =
      (REvent.subheader "Top Similar Queries:" ::
        (((top :: rest).take 5).map render_query).flatten, none) := by
  simp [try_body, h, hs, hge]

lemma closeDriver_not_mem_try_body (sim : String → String → Rat)
    (fr : Except String (List Row)) (rf : Option String) (t : String) :
    REvent.closeDriver ∉ (try_body sim fr rf t).1 := by
  rcases fr with e | rows
  · rw [try_body_fetch_error]
    simp
  · by_cases hempty : fetch_queries_with_objectives_and_details rows = []
    · rw [try_body_empty sim rf t rows hempty]
      simp
    · rcases rf with _ | e2
      · rcases hs : sortBySimilarityDesc
            (calculate_similarity sim (fetch_queries_with_objectives_and_details rows) t)
          with _ | ⟨top, rest⟩
        · rw [try_body_index_error sim t rows hempty hs]
          simp
        · by_cases hlt : top.similarity < mkRat 3 10
          · rw [try_body_warning sim t rows top rest hempty hs hlt]
            simp
          · rw [try_body_results sim t rows top rest hempty hs hlt]
            simp only [List.mem_cons, List.mem_flatten, List.mem_map]
            rintro (h2 | ⟨l, ⟨q, hq, rfl⟩, hmem⟩)
            · exact REvent.noConfusion h2
            · exact closeDriver_not_mem_render_query q hmem
      · rw [try_body_rank_fail sim e2 t rows hempty]
        simp

/-- C8: every request cycle with a non-empty input releases the store
connection exactly once, whatever the exit path: success, empty data,
warning, or an error in fetch, rank, or render. -/
theorem driver_closed_exactly_once (sim : String → String → Rat)
    (fr : Except String (List Row)) (rf : Option String) (fa : Option Nat)
    (t : String) (ht : t ≠ "") :
    (run_request sim fr rf fa t).count REvent.closeDriver = 1 := by
  have hmem : REvent.closeDriver ∉ (injectRenderFailure (try_body sim fr rf t) fa).1 := by
    unfold injectRenderFailure
    rcases fa with _ | k
    · exact closeDriver_not_mem_try_body sim fr rf t
    · simp only []
      split
      · intro hmem
        exact closeDriver_not_mem_try_body sim fr rf t
          ((List.take_sublist _ _).subset hmem)
      · exact closeDriver_not_mem_try_body sim fr rf t
  rcases h2 : (injectRenderFailure (try_body sim fr rf t) fa).2 with _ | e
  · simp [run_request, ht, h2, List.count_append, List.count_eq_zero.mpr hmem]
  · simp [run_request, ht, h2, List.count_append, List.count_eq_zero.mpr hmem]

/-- Witness for C8 on a concrete request. -/
theorem driver_closed_exactly_once_witness :
    ("x" ≠ "") ∧
    (run_request (fun _ _ => 1) (Except.ok []) none none "x").count
      REvent.closeDriver = 1 :=
  ⟨by decide,
   driver_closed_exactly_once (fun _ _ => 1) (Except.ok []) none none "x"
     (by decide)⟩

/-! ### The reshaping invariant of the fetch loop -/

/-- The entries of the working list that carry a given query id. -/
def filterById (l : List Query) (i : String) : List Query :=
  l.filter (fun q => q.id == i)

lemma filterById_map_of_id_preserved (g : Query → Query) (acc : List Query)
    (i : String) (hg : ∀ q, (g q).id = q.id) :
    filterById (acc.map g) i = (filterById acc i).map g := by
  induction acc with
  | nil => rfl
  | cons q acc ih =>
    unfold filterById at *
    simp only [List.map_cons, List.filter_cons, hg]
    by_cases h : (q.id == i) = true
    · simp [h, ih]
    · simp [h, ih]

lemma any_id_iff_filterById_ne_nil (acc : List Query) (x : String) :
    (acc.any (fun q => q.id == x) = true) ↔ filterById acc x ≠ [] := by
  unfold filterById
  rw [List.any_eq_true]
  constructor
  · rintro ⟨q, hq, hqx⟩ hnil
    rw [List.filter_eq_nil_iff] at hnil
    exact hnil q hq hqx
  · intro hne
    by_contra hno
    push_neg at hno
    exact hne (List.filter_eq_nil_iff.mpr fun a ha hpa => hno a ha hpa)

lemma mem_filterById (acc : List Query) (i : String) (q : Query) :
    q ∈ filterById acc i ↔ q ∈ acc ∧ q.id = i := by
  unfold filterById
  simp [List.mem_filter]

lemma filterById_processRow (acc : List Query) (r : Row) (i : String) :
    filterById (processRow acc r) i =
      if r.query_id = i then
        (match filterById acc i with
         | [] => [{ id := r.query_id, query := r.query_text,
                    objectives := [rowObjective r] }]
         | q0 :: qs => (q0 :: qs).map (fun q =>
             { q with objectives := q.objectives ++ [rowObjective r] }))
      else filterById acc i := by
  unfold processRow
  by_cases hany : (acc.any (fun q => q.id == r.query_id) = true)
  · rw [if_pos hany]
    rw [filterById_map_of_id_preserved _ _ _ (fun q => by
      by_cases hq : (q.id == r.query_id) = true
      · simp [hq]
      · simp [hq])]
    by_cases hqi : r.query_id = i
    · subst hqi
      rcases hacc : filterById acc r.query_id with _ | ⟨q0, qs⟩
      · exact absurd hacc ((any_id_iff_filterById_ne_nil acc r.query_id).mp hany)
      · rw [if_pos rfl]
        apply List.map_congr_left
        intro a ha
        have haid : a.id = r.query_id := by
          have := (mem_filterById acc r.query_id a).mp (hacc ▸ ha)
          exact this.2
        simp [haid]
    · rw [if_neg hqi]
      conv_rhs => rw [← List.map_id (filterById acc i)]
      apply List.map_congr_left
      intro a ha
      have haid : a.id = i := ((mem_filterById acc i a).mp ha).2
      have hne : (a.id == r.query_id) = false := by
        rw [haid]
        exact beq_false_of_ne (fun h => hqi h.symm)
      simp [hne]
  · rw [if_neg hany]
    unfold filterById
    rw [List.filter_append]
    by_cases hqi : r.query_id = i
    · subst hqi
      have hnil : filterById acc r.query_id = [] := by
        by_contra hne
        exact hany ((any_id_iff_filterById_ne_nil acc r.query_id).mpr hne)
      unfold filterById at hnil
      rw [hnil, if_pos rfl]
      simp
    · rw [if_neg hqi]
      have hone : filterById [{ id := r.query_id, query := r.query_text, objectives := [rowObjective r] }] i = [] := by
        unfold filterById
        simp [beq_false_of_ne hqi]
      unfold filterById at hone
      rw [hone, List.append_nil]

lemma filterById_foldl (i : String) (rows : List Row) (acc : List Query) :
    filterById (rows.foldl processRow acc) i =
      match filterById acc i, rows.filter (fun r => r.query_id == i) with
      | [], [] => []
      | [], r :: rs => [{ id := i, query := r.query_text, objectives := (r :: rs).map rowObjective }]
      | q0 :: qs, rs => (q0 :: qs).map (fun q => { q with objectives := q.objectives ++ rs.map rowObjective }) := by
  induction rows generalizing acc with
  | nil =>
    simp only [List.foldl_nil, List.filter_nil]
    rcases hacc : filterById acc i with _ | ⟨q0, qs⟩
    · rfl
    · simp only []
      conv_lhs => rw [← List.map_id (q0 :: qs)]
      apply List.map_congr_left
      intro a _
      simp
  | cons r rs ih =>
    rw [List.foldl_cons, ih (processRow acc r), filterById_processRow]
    by_cases hqi : r.query_id = i
    · rw [if_pos hqi]
      have hfc : (r :: rs).filter (fun r2 => r2.query_id == i) =
          r :: rs.filter (fun r2 => r2.query_id == i) := by
        rw [List.filter_cons]
        simp [hqi]
      rw [hfc]
      rcases hacc : filterById acc i with _ | ⟨q0, qs⟩
      · simp [hqi]
      · simp only [List.map_cons]
        simp [List.map_map, Function.comp, List.append_assoc]
    · rw [if_neg hqi]
      have hfc : (r :: rs).filter (fun r2 => r2.query_id == i) =
          rs.filter (fun r2 => r2.query_id == i) := by
        rw [List.filter_cons]
        simp [hqi]
      rw [hfc]

/-- C1: for every list of flat rows, the reshaping by fetch produces exactly
one Query record per distinct query id, and that record's objectives list
carries one Objective per row bearing this id, in row order and without
deduplication, so its length equals the number of such rows. -/
theorem fetch_one_record_per_id (rows : List Row) (i : String)
    (hmem : i ∈ rows.map (fun r => r.query_id)) :
    ((fetch_queries_with_objectives_and_details rows).filter
      (fun q => q.id == i)).length = 1 ∧
    ∀ q ∈ fetch_queries_with_objectives_and_details rows, q.id = i →
      q.objectives = (rows.filter (fun r => r.query_id == i)).map rowObjective ∧
      q.objectives.length = (rows.filter (fun r => r.query_id == i)).length := by
  have hfold := filterById_foldl i rows []
  have hnil : filterById ([] : List Query) i = [] := rfl
  rw [hnil] at hfold
  obtain ⟨r1, hr1, hr1i⟩ := List.mem_map.mp hmem
  rcases hrows : rows.filter (fun r => r.query_id == i) with _ | ⟨r0, rs0⟩
  · exfalso
    have hno := List.filter_eq_nil_iff.mp hrows r1 hr1
    simp [hr1i] at hno
  · rw [hrows] at hfold
    have hfold2 : filterById (rows.foldl processRow []) i =
        [{ id := i, query := r0.query_text, objectives := (r0 :: rs0).map rowObjective }] := by
      rw [hfold]
    constructor
    · show (filterById (rows.foldl processRow []) i).length = 1
      rw [hfold2]
      rfl
    · intro q hq hqi
      have hqmem : q ∈ filterById (fetch_queries_with_objectives_and_details rows) i :=
        (mem_filterById _ i q).mpr ⟨hq, hqi⟩
      unfold fetch_queries_with_objectives_and_details at hqmem
      rw [hfold2] at hqmem
      have hqe := List.mem_singleton.mp hqmem
      rw [hqe, hrows]
      constructor
      · rfl
      · simp

/-- Witness for C1 on the worked example from the spec: two rows with id q1
and one row with id q2. -/
theorem fetch_one_record_per_id_witness :
    ("q1" ∈ ([⟨"q1", "A", "o1", "Obj1", [], []⟩, ⟨"q1", "A", "o2", "Obj2", ["Ads"], ["CTR"]⟩, ⟨"q2", "B", "o1", "Obj1", [], []⟩] : List Row).map (fun r => r.query_id)) ∧
    (((fetch_queries_with_objectives_and_details [⟨"q1", "A", "o1", "Obj1", [], []⟩, ⟨"q1", "A", "o2", "Obj2", ["Ads"], ["CTR"]⟩, ⟨"q2", "B", "o1", "Obj1", [], []⟩]).filter (fun q => q.id == "q1")).length = 1 ∧
     ∀ q ∈ fetch_queries_with_objectives_and_details [⟨"q1", "A", "o1", "Obj1", [], []⟩, ⟨"q1", "A", "o2", "Obj2", ["Ads"], ["CTR"]⟩, ⟨"q2", "B", "o1", "Obj1", [], []⟩], q.id = "q1" →
      q.objectives = (([⟨"q1", "A", "o1", "Obj1", [], []⟩, ⟨"q1", "A", "o2", "Obj2", ["Ads"], ["CTR"]⟩, ⟨"q2", "B", "o1", "Obj1", [], []⟩] : List Row).filter (fun r => r.query_id == "q1")).map rowObjective ∧
      q.objectives.length = (([⟨"q1", "A", "o1", "Obj1", [], []⟩, ⟨"q1", "A", "o2", "Obj2", ["Ads"], ["CTR"]⟩, ⟨"q2", "B", "o1", "Obj1", [], []⟩] : List Row).filter (fun r => r.query_id == "q1")).length) :=
  ⟨by decide,
   fetch_one_record_per_id [⟨"q1", "A", "o1", "Obj1", [], []⟩, ⟨"q1", "A", "o2", "Obj2", ["Ads"], ["CTR"]⟩, ⟨"q2", "B", "o1", "Obj1", [], []⟩] "q1" (by decide)⟩

/-- C10: every Query record returned by fetch has a non-empty objectives
list: a record is created only while processing a row, and that same
iteration appends one Objective to it. -/
theorem fetch_objectives_nonempty (rows : List Row) (q : Query)
    (hq : q ∈ fetch_queries_with_objectives_and_details rows) :
    q.objectives ≠ [] := by
  have hqmem : q ∈ filterById (fetch_queries_with_objectives_and_details rows) q.id :=
    (mem_filterById _ _ q).mpr ⟨hq, rfl⟩
  unfold fetch_queries_with_objectives_and_details at hqmem
  have hfold := filterById_foldl q.id rows []
  have hnil : filterById ([] : List Query) q.id = [] := rfl
  rw [hnil] at hfold
  rcases hrows : rows.filter (fun r => r.query_id == q.id) with _ | ⟨r0, rs0⟩
  · rw [hrows] at hfold
    have hfold2 : filterById (rows.foldl processRow []) q.id = [] := by rw [hfold]
    rw [hfold2] at hqmem
    exact absurd hqmem (List.not_mem_nil q)
  · rw [hrows] at hfold
    have hfold2 : filterById (rows.foldl processRow []) q.id =
        [{ id := q.id, query := r0.query_text, objectives := (r0 :: rs0).map rowObjective }] := by
      rw [hfold]
    rw [hfold2] at hqmem
    have hqe := List.mem_singleton.mp hqmem
    rw [hqe]
    simp

/-- Witness for C10 on the worked example's first output record. -/
theorem fetch_objectives_nonempty_witness :
    (({ id := "q1", query := "A", objectives := [⟨"o1", "Obj1", [], []⟩, ⟨"o2", "Obj2", ["Ads"], ["CTR"]⟩] } : Query) ∈ fetch_queries_with_objectives_and_details [⟨"q1", "A", "o1", "Obj1", [], []⟩, ⟨"q1", "A", "o2", "Obj2", ["Ads"], ["CTR"]⟩]) ∧
    ({ id := "q1", query := "A", objectives := [⟨"o1", "Obj1", [], []⟩, ⟨"o2", "Obj2", ["Ads"], ["CTR"]⟩] } : Query).objectives ≠ [] :=
  ⟨by decide,
   fetch_objectives_nonempty [⟨"q1", "A", "o1", "Obj1", [], []⟩, ⟨"q1", "A", "o2", "Obj2", ["Ads"], ["CTR"]⟩] { id := "q1", query := "A", objectives := [⟨"o1", "Obj1", [], []⟩, ⟨"o2", "Obj2", ["Ads"], ["CTR"]⟩] } (by decide)⟩

/-! ### Request-level path lemmas -/

lemma run_request_no_exception (sim : String → String → Rat)
    (fr : Except String (List Row)) (rf : Option String) (t : String)
    (ht : t ≠ "") (hb : (try_body sim fr rf t).2 = none) :
    run_request sim fr rf none t = (try_body sim fr rf t).1 ++ [REvent.closeDriver] := by
  simp [run_request, injectRenderFailure, ht, hb]

lemma run_request_exception (sim : String → String → Rat)
    (fr : Except String (List Row)) (rf : Option String) (t : String) (e : String)
    (ht : t ≠ "") (hb : (try_body sim fr rf t).2 = some e) :
    run_request sim fr rf none t = (try_body sim fr rf t).1 ++
      [REvent.error ("An error occurred: " ++ e), REvent.closeDriver] := by
  simp [run_request, injectRenderFailure, ht, hb]

lemma run_request_render_failure (sim : String → String → Rat)
    (fr : Except String (List Row)) (rf : Option String) (t : String) (k : Nat)
    (ht : t ≠ "") (hk : k < (try_body sim fr rf t).1.length) :
    run_request sim fr rf (some k) t = (try_body sim fr rf t).1.take k ++
      [REvent.error ("An error occurred: " ++ "render failure"), REvent.closeDriver] := by
  simp [run_request, injectRenderFailure, ht, hk]

lemma countP_isExpander_render_objectives (objs : List Objective) :
    ((objs.map render_objective).flatten).countP isExpander = 0 := by
  induction objs with
  | nil => rfl
  | cons o os ih =>
    simp only [List.map_cons, List.flatten_cons, List.countP_append, ih]
    simp [render_objective, List.countP_cons, isExpander]

lemma countP_isExpander_render_queries (l : List ScoredQuery) :
    ((l.map render_query).flatten).countP isExpander = l.length := by
  induction l with
  | nil => rfl
  | cons q l ih =>
    simp only [List.map_cons, List.flatten_cons, List.countP_append, ih]
    simp [render_query, List.countP_cons, isExpander,
      countP_isExpander_render_objectives q.objectives, Nat.add_comm]

lemma warning_not_mem_render_query (q : ScoredQuery) :
    ∀ e ∈ render_query q, isWarning e = false := by
  intro e he
  simp only [render_query, List.mem_cons, List.mem_flatten, List.mem_map] at he
  rcases he with rfl | rfl | rfl | ⟨l, ⟨o, ho, rfl⟩, hmem⟩
  · rfl
  · rfl
  · rfl
  · have h2 : e = REvent.write ("**Traffic Sources:** " ++
        (if o.traffic_sources ≠ [] then String.intercalate ", " o.traffic_sources else "None")) ∨
        e = REvent.write ("**KPIs:** " ++
        (if o.kpis ≠ [] then String.intercalate ", " o.kpis else "None")) := by
      simpa [render_objective] using hmem
    rcases h2 with rfl | rfl
    · rfl
    · rfl

/-- C4: for a non-empty fetch with no injected failures, a top-ranked score
strictly below 3/10 makes the request show the relevance warning and render
no result entry, while a top score of at least 3/10 makes it render the top
five ranked entries (or fewer when fewer exist) and no warning. -/
theorem threshold_branch (sim : String → String → Rat) (rows : List Row)
    (t : String) (ht : t ≠ "")
    (h : fetch_queries_with_objectives_and_details rows ≠ [])
    (top : ScoredQuery) (rest : List ScoredQuery)
    (hs : sortBySimilarityDesc (calculate_similarity sim
      (fetch_queries_with_objectives_and_details rows) t) = top :: rest) :
    (top.similarity < mkRat 3 10 →
      run_request sim (Except.ok rows) none none t =
        [REvent.warning "The input query might not be relevant to marketing.",
         REvent.closeDriver]) ∧
    (mkRat 3 10 ≤ top.similarity →
      run_request sim (Except.ok rows) none none t =
        REvent.subheader "Top Similar Queries:" ::
          ((((top :: rest).take 5).map render_query).flatten ++ [REvent.closeDriver]) ∧
      (run_request sim (Except.ok rows) none none t).countP isExpander =
        min 5 (top :: rest).length ∧
      ∀ e ∈ run_request sim (Except.ok rows) none none t, isWarning e = false) := by
  constructor
  · intro hlt
    have hb := try_body_warning sim t rows top rest h hs hlt
    rw [run_request_no_exception sim (Except.ok rows) none t ht (by rw [hb]), hb]
    rfl
  · intro hge
    have hnlt : ¬ top.similarity < mkRat 3 10 := not_lt.mpr hge
    have hb := try_body_results sim t rows top rest h hs hnlt
    have heq : run_request sim (Except.ok rows) none none t =
        REvent.subheader "Top Similar Queries:" ::
          ((((top :: rest).take 5).map render_query).flatten ++ [REvent.closeDriver]) := by
      rw [run_request_no_exception sim (Except.ok rows) none t ht (by rw [hb]), hb]
      rfl
    refine ⟨heq, ?_, ?_⟩
    · rw [heq]
      simp only [List.countP_cons, List.countP_append,
        countP_isExpander_render_queries ((top :: rest).take 5), List.length_take]
      simp [isExpander]
    · intro e he
      rw [heq] at he
      rcases List.mem_cons.mp he with rfl | he2
      · rfl
      · rcases List.mem_append.mp he2 with he3 | he4
        · obtain ⟨l, hl, hel⟩ := List.mem_flatten.mp he3
          obtain ⟨q2, _, rfl⟩ := List.mem_map.mp hl
          exact warning_not_mem_render_query q2 e hel
        · rcases List.mem_singleton.mp he4 with rfl
          rfl

/-- Witness for C4 on one row scored 1 (above the threshold). -/
theorem threshold_branch_witness :
    (("x" : String) ≠ "" ∧
     fetch_queries_with_objectives_and_details [⟨"q1", "A", "o1", "Obj1", [], []⟩] ≠ [] ∧
     sortBySimilarityDesc (calculate_similarity (fun _ _ => 1)
       (fetch_queries_with_objectives_and_details [⟨"q1", "A", "o1", "Obj1", [], []⟩]) "x") =
       [{ id := "q1", query := "A", objectives := [⟨"o1", "Obj1", [], []⟩], similarity := 1 }]) ∧
    ((({ id := "q1", query := "A", objectives := [⟨"o1", "Obj1", [], []⟩], similarity := 1 } : ScoredQuery).similarity < mkRat 3 10 →
      run_request (fun _ _ => 1) (Except.ok [⟨"q1", "A", "o1", "Obj1", [], []⟩]) none none "x" =
        [REvent.warning "The input query might not be relevant to marketing.", REvent.closeDriver]) ∧
     (mkRat 3 10 ≤ ({ id := "q1", query := "A", objectives := [⟨"o1", "Obj1", [], []⟩], similarity := 1 } : ScoredQuery).similarity →
      run_request (fun _ _ => 1) (Except.ok [⟨"q1", "A", "o1", "Obj1", [], []⟩]) none none "x" =
        REvent.subheader "Top Similar Queries:" ::
          ((([({ id := "q1", query := "A", objectives := [⟨"o1", "Obj1", [], []⟩], similarity := 1 } : ScoredQuery)].take 5).map render_query).flatten ++ [REvent.closeDriver]) ∧
      (run_request (fun _ _ => 1) (Except.ok [⟨"q1", "A", "o1", "Obj1", [], []⟩]) none none "x").countP isExpander =
        min 5 ([({ id := "q1", query := "A", objectives := [⟨"o1", "Obj1", [], []⟩], similarity := 1 } : ScoredQuery)]).length ∧
      ∀ e ∈ run_request (fun _ _ => 1) (Except.ok [⟨"q1", "A", "o1", "Obj1", [], []⟩]) none none "x", isWarning e = false)) :=
  ⟨⟨by decide, by decide, by
     rw [(by decide : calculate_similarity (fun _ _ => 1) (fetch_queries_with_objectives_and_details [⟨"q1", "A", "o1", "Obj1", [], []⟩]) "x" = [{ id := "q1", query := "A", objectives := [⟨"o1", "Obj1", [], []⟩], similarity := 1 }])]
     exact List.mergeSort_singleton _⟩,
   threshold_branch (fun _ _ => 1) [⟨"q1", "A", "o1", "Obj1", [], []⟩] "x" (by decide)
     (by decide) { id := "q1", query := "A", objectives := [⟨"o1", "Obj1", [], []⟩], similarity := 1 } []
     (by
       rw [(by decide : calculate_similarity (fun _ _ => 1) (fetch_queries_with_objectives_and_details [⟨"q1", "A", "o1", "Obj1", [], []⟩]) "x" = [{ id := "q1", query := "A", objectives := [⟨"o1", "Obj1", [], []⟩], similarity := 1 }])]
       exact List.mergeSort_singleton _)⟩

/-- C6: every objective of every rendered query has its traffic-sources
field displayed as the comma-joined list of names, or the literal string
"None" when the list is empty, and likewise for its KPIs field. -/
theorem objective_fields_rendered (sim : String → String → Rat) (rows : List Row)
    (t : String) (ht : t ≠ "")
    (h : fetch_queries_with_objectives_and_details rows ≠ [])
    (top : ScoredQuery) (rest : List ScoredQuery)
    (hs : sortBySimilarityDesc (calculate_similarity sim
      (fetch_queries_with_objectives_and_details rows) t) = top :: rest)
    (hge : mkRat 3 10 ≤ top.similarity) :
    ∀ q ∈ (top :: rest).take 5, ∀ obj ∈ q.objectives,
      REvent.write ("**Traffic Sources:** " ++
        (if obj.traffic_sources = [] then "None"
         else String.intercalate ", " obj.traffic_sources)) ∈
        run_request sim (Except.ok rows) none none t ∧
      REvent.write ("**KPIs:** " ++
        (if obj.kpis = [] then "None" else String.intercalate ", " obj.kpis)) ∈
        run_request sim (Except.ok rows) none none t := by
  intro q hq obj hobj
  have hnlt : ¬ top.similarity < mkRat 3 10 := not_lt.mpr hge
  have hb := try_body_results sim t rows top rest h hs hnlt
  have heq : run_request sim (Except.ok rows) none none t =
      REvent.subheader "Top Similar Queries:" ::
        ((((top :: rest).take 5).map render_query).flatten ++ [REvent.closeDriver]) := by
    rw [run_request_no_exception sim (Except.ok rows) none t ht (by rw [hb]), hb]
    rfl
  rw [heq]
  have hmemflat : ∀ e ∈ render_query q,
      e ∈ (((top :: rest).take 5).map render_query).flatten := by
    intro e he
    exact List.mem_flatten.mpr ⟨render_query q, List.mem_map_of_mem render_query hq, he⟩
  have hobjflat : ∀ e ∈ render_objective obj,
      e ∈ render_query q := by
    intro e he
    simp only [render_query, List.mem_cons]
    right; right; right
    exact List.mem_flatten.mpr ⟨render_objective obj,
      List.mem_map_of_mem render_objective hobj, he⟩
  constructor
  · apply List.mem_cons_of_mem
    apply List.mem_append_left
    apply hmemflat
    apply hobjflat
    simp only [render_objective, List.mem_cons]
    left
    by_cases hts : obj.traffic_sources = []
    · simp [hts]
    · simp [hts]
  · apply List.mem_cons_of_mem
    apply List.mem_append_left
    apply hmemflat
    apply hobjflat
    simp only [render_objective, List.mem_cons]
    right; left
    by_cases hks : obj.kpis = []
    · simp [hks]
    · simp [hks]

/-- Witness for C6 on an objective with no traffic sources and one KPI. -/
theorem objective_fields_rendered_witness :
    (("x" : String) ≠ "" ∧
     fetch_queries_with_objectives_and_details [⟨"q1", "A", "o1", "Obj1", [], ["CTR"]⟩] ≠ [] ∧
     sortBySimilarityDesc (calculate_similarity (fun _ _ => 1)
       (fetch_queries_with_objectives_and_details [⟨"q1", "A", "o1", "Obj1", [], ["CTR"]⟩]) "x") =
       [{ id := "q1", query := "A", objectives := [⟨"o1", "Obj1", [], ["CTR"]⟩], similarity := 1 }] ∧
     mkRat 3 10 ≤ 1 ∧
     ({ id := "q1", query := "A", objectives := [⟨"o1", "Obj1", [], ["CTR"]⟩], similarity := 1 } : ScoredQuery) ∈ ([({ id := "q1", query := "A", objectives := [⟨"o1", "Obj1", [], ["CTR"]⟩], similarity := 1 } : ScoredQuery)]).take 5 ∧
     (⟨"o1", "Obj1", [], ["CTR"]⟩ : Objective) ∈ ({ id := "q1", query := "A", objectives := [⟨"o1", "Obj1", [], ["CTR"]⟩], similarity := 1 } : ScoredQuery).objectives) ∧
    (REvent.write ("**Traffic Sources:** " ++
        (if (⟨"o1", "Obj1", [], ["CTR"]⟩ : Objective).traffic_sources = [] then "None"
         else String.intercalate ", " (⟨"o1", "Obj1", [], ["CTR"]⟩ : Objective).traffic_sources)) ∈
      run_request (fun _ _ => 1) (Except.ok [⟨"q1", "A", "o1", "Obj1", [], ["CTR"]⟩]) none none "x" ∧
     REvent.write ("**KPIs:** " ++
        (if (⟨"o1", "Obj1", [], ["CTR"]⟩ : Objective).kpis = [] then "None"
         else String.intercalate ", " (⟨"o1", "Obj1", [], ["CTR"]⟩ : Objective).kpis)) ∈
      run_request (fun _ _ => 1) (Except.ok [⟨"q1", "A", "o1", "Obj1", [], ["CTR"]⟩]) none none "x") :=
  ⟨⟨by decide, by decide, by
     rw [(by decide : calculate_similarity (fun _ _ => 1) (fetch_queries_with_objectives_and_details [⟨"q1", "A", "o1", "Obj1", [], ["CTR"]⟩]) "x" = [{ id := "q1", query := "A", objectives := [⟨"o1", "Obj1", [], ["CTR"]⟩], similarity := 1 }])]
     exact List.mergeSort_singleton _, by decide, by decide, by decide⟩,
   objective_fields_rendered (fun _ _ => 1) [⟨"q1", "A", "o1", "Obj1", [], ["CTR"]⟩] "x"
     (by decide) (by decide)
     { id := "q1", query := "A", objectives := [⟨"o1", "Obj1", [], ["CTR"]⟩], similarity := 1 } []
     (by
       rw [(by decide : calculate_similarity (fun _ _ => 1) (fetch_queries_with_objectives_and_details [⟨"q1", "A", "o1", "Obj1", [], ["CTR"]⟩]) "x" = [{ id := "q1", query := "A", objectives := [⟨"o1", "Obj1", [], ["CTR"]⟩], similarity := 1 }])]
       exact List.mergeSort_singleton _)
     (by decide)
     { id := "q1", query := "A", objectives := [⟨"o1", "Obj1", [], ["CTR"]⟩], similarity := 1 }
     (by decide)
     ⟨"o1", "Obj1", [], ["CTR"]⟩
     (by decide)⟩

/-- C7 counterexample: a failure in a rendering call after the first result
entry leaves that entry's events in the output next to the error message,
so the rendered output is not all-or-nothing. -/
theorem error_all_or_nothing_counterexample :
    REvent.expander "A" ∈ run_request (fun _ _ => 1)
      (Except.ok [⟨"q1", "A", "o1", "Obj1", [], []⟩]) none (some 2) "x" ∧
    REvent.error ("An error occurred: " ++ "render failure") ∈ run_request (fun _ _ => 1)
      (Except.ok [⟨"q1", "A", "o1", "Obj1", [], []⟩]) none (some 2) "x" := by
  have hs : sortBySimilarityDesc (calculate_similarity (fun _ _ => 1)
      (fetch_queries_with_objectives_and_details [⟨"q1", "A", "o1", "Obj1", [], []⟩]) "x") =
      [{ id := "q1", query := "A", objectives := [⟨"o1", "Obj1", [], []⟩], similarity := 1 }] := by
    rw [(by decide : calculate_similarity (fun _ _ => 1) (fetch_queries_with_objectives_and_details [⟨"q1", "A", "o1", "Obj1", [], []⟩]) "x" = [{ id := "q1", query := "A", objectives := [⟨"o1", "Obj1", [], []⟩], similarity := 1 }])]
    exact List.mergeSort_singleton _
  have hb := try_body_results (fun _ _ => 1) "x" [⟨"q1", "A", "o1", "Obj1", [], []⟩]
    { id := "q1", query := "A", objectives := [⟨"o1", "Obj1", [], []⟩], similarity := 1 } []
    (by decide) hs (by decide)
  have hk : 2 < (try_body (fun _ _ => 1)
      (Except.ok [⟨"q1", "A", "o1", "Obj1", [], []⟩]) none "x").1.length := by
    rw [hb]
    decide
  have heq := run_request_render_failure (fun _ _ => 1)
    (Except.ok [⟨"q1", "A", "o1", "Obj1", [], []⟩]) none "x" 2 (by decide) hk
  rw [heq, hb]
  decide

/-- C7 amended: any exception during fetch or rank is caught by the
top-level handler, which shows only the generic error message, with no
result content; an exception during rendering is also caught and the
generic error message shown, but the events already rendered before the
failing call remain in the output. -/
theorem error_handling_catches_all (sim : String → String → Rat)
    (rows : List Row) (e : String) (rf : Option String) (fa : Option Nat)
    (t : String) (ht : t ≠ "") :
    (run_request sim (Except.error e) rf fa t =
      [REvent.error ("An error occurred: " ++ e), REvent.closeDriver]) ∧
    (fetch_queries_with_objectives_and_details rows ≠ [] →
      run_request sim (Except.ok rows) (some e) fa t =
        [REvent.error ("An error occurred: " ++ e), REvent.closeDriver]) ∧
    (∀ k, k < (try_body sim (Except.ok rows) none t).1.length →
      run_request sim (Except.ok rows) none (some k) t =
        (try_body sim (Except.ok rows) none t).1.take k ++
          [REvent.error ("An error occurred: " ++ "render failure"), REvent.closeDriver]) := by
  refine ⟨?_, ?_, ?_⟩
  · rcases fa with _ | k
    · simp [run_request, injectRenderFailure, try_body, ht]
    · simp [run_request, injectRenderFailure, try_body, ht]
  · intro h2
    have hb := try_body_rank_fail sim e t rows h2
    rcases fa with _ | k
    · simp [run_request, injectRenderFailure, ht, hb]
    · simp [run_request, injectRenderFailure, ht, hb]
  · intro k hk
    exact run_request_render_failure sim (Except.ok rows) none t k ht hk

/-- Witness for the amended C7 on concrete failing requests. -/
theorem error_handling_catches_all_witness :
    (("x" : String) ≠ "" ∧
     fetch_queries_with_objectives_and_details [⟨"q1", "A", "o1", "Obj1", [], []⟩] ≠ []) ∧
    ((run_request (fun _ _ => 1) (Except.error "boom") none none "x" =
       [REvent.error ("An error occurred: " ++ "boom"), REvent.closeDriver]) ∧
     (run_request (fun _ _ => 1) (Except.ok [⟨"q1", "A", "o1", "Obj1", [], []⟩]) (some "boom") none "x" =
       [REvent.error ("An error occurred: " ++ "boom"), REvent.closeDriver]) ∧
     (∀ k, k < (try_body (fun _ _ => 1) (Except.ok [⟨"q1", "A", "o1", "Obj1", [], []⟩]) none "x").1.length →
       run_request (fun _ _ => 1) (Except.ok [⟨"q1", "A", "o1", "Obj1", [], []⟩]) none (some k) "x" =
         (try_body (fun _ _ => 1) (Except.ok [⟨"q1", "A", "o1", "Obj1", [], []⟩]) none "x").1.take k ++
           [REvent.error ("An error occurred: " ++ "render failure"), REvent.closeDriver])) :=
  ⟨⟨by decide, by decide⟩,
   ⟨(error_handling_catches_all (fun _ _ => 1) [⟨"q1", "A", "o1", "Obj1", [], []⟩] "boom"
       none none "x" (by decide)).1,
    (error_handling_catches_all (fun _ _ => 1) [⟨"q1", "A", "o1", "Obj1", [], []⟩] "boom"
       none none "x" (by decide)).2.1 (by decide),
    (error_handling_catches_all (fun _ _ => 1) [⟨"q1", "A", "o1", "Obj1", [], []⟩] "boom"
       none none "x" (by decide)).2.2⟩⟩

/-- Witness for C2 on a concrete list with a tie at score 1. -/
theorem sort_descending_and_stable_witness :
    (sortBySimilarityDesc [⟨"a", "a", [], 1⟩, ⟨"b", "b", [], 3⟩, ⟨"c", "c", [], 1⟩]).Perm
      [⟨"a", "a", [], 1⟩, ⟨"b", "b", [], 3⟩, ⟨"c", "c", [], 1⟩] ∧
    (sortBySimilarityDesc [⟨"a", "a", [], 1⟩, ⟨"b", "b", [], 3⟩, ⟨"c", "c", [], 1⟩]).Pairwise
      (fun a b => b.similarity ≤ a.similarity) ∧
    ∀ s : Rat, (sortBySimilarityDesc [⟨"a", "a", [], 1⟩, ⟨"b", "b", [], 3⟩, ⟨"c", "c", [], 1⟩]).filter
        (fun x => decide (x.similarity = s)) =
      ([⟨"a", "a", [], 1⟩, ⟨"b", "b", [], 3⟩, ⟨"c", "c", [], 1⟩] : List ScoredQuery).filter
        (fun x => decide (x.similarity = s)) :=
  sort_descending_and_stable [⟨"a", "a", [], 1⟩, ⟨"b", "b", [], 3⟩, ⟨"c", "c", [], 1⟩]

/-- Witness for C9 on a one-element address list over a constant heap. -/
theorem calculate_similarity_heap_frame_witness :
    (calculate_similarity_heap (fun _ _ => 1) (fun _ => ⟨"q1", "A", [], none⟩) [0] "x").2 = [0] ∧
    ∀ a : Nat, (calculate_similarity_heap (fun _ _ => 1) (fun _ => ⟨"q1", "A", [], none⟩) [0] "x").1 a =
      if a ∈ [0] then { (fun _ : Nat => (⟨"q1", "A", [], none⟩ : QueryDict)) a with
        similarity := some ((fun _ _ : String => (1 : Rat)) ((fun _ : Nat => (⟨"q1", "A", [], none⟩ : QueryDict)) a).query "x") }
      else (fun _ : Nat => (⟨"q1", "A", [], none⟩ : QueryDict)) a :=
  calculate_similarity_heap_frame (fun _ _ => 1) (fun _ => ⟨"q1", "A", [], none⟩) [0] "x"
